import Mathlib

set_option maxRecDepth 100000

/-!
Verification development for the SamplerCommands extension (src/index.js).

The module under verification scans a settings panel of the host UI for
sampler controls (sliders, checkboxes, number inputs), derives for each one
a SamplerParameter record, and registers two command handlers, sampler-get
and sampler-set, that look a parameter up by name or id and read or mutate
the underlying control.

Modelling conventions used throughout this file:

* JavaScript numbers are modelled by JSNum: NaN, the two infinities, and
  finite values as exact rational numbers.  Double precision rounding of
  in-range values is not modelled; every numeral occurring in the claims is
  exactly representable at the precision the program uses.
* Strings are Lean strings; the character-level helpers used by the program
  (trim, toLowerCase, replace) are modelled over the underlying character
  lists, with ASCII case folding.
* DOM facts that the program obtains from host primitives (the result of
  the getTitleParent ancestor search, membership in the excluded
  #openai_settings region, the computed styles along the ancestor chain)
  are recorded as fields of a Control record; the logic of src/index.js
  that consumes them is translated faithfully.
* Exceptions thrown by the handlers are modelled with Except; DOM mutations
  performed by the set handler are modelled as an explicit effect list.
-/

/-- A JavaScript number: NaN, one of the two infinities, or a finite value
modelled as an exact rational. -/
inductive JSNum where
  | nan
  | posInf
  | negInf
  | finite (q : ℚ)
deriving DecidableEq

/-- True exactly on finite values; models isNaN(n) and isFinite(n) combined
as used on line 187 of the source. -/
def JSNum.isFiniteB : JSNum → Bool
  | .finite _ => true
  | _ => false

/-- Characters treated as whitespace by the string trimming and the leading
whitespace skip of parseFloat (ASCII whitespace plus no-break space and the
byte order mark). -/
def isJSWhitespace (c : Char) : Bool :=
  c == ' ' || c == '\t' || c == '\n' || c == '\r' ||
  c == '\x0b' || c == '\x0c' || c == ' ' || c == '﻿'

/-- Numeric value of a decimal digit character. -/
def digitVal (c : Char) : ℕ := c.toNat - 48

/-- Value of a list of decimal digit characters read as a natural number. -/
def digitsToNat (ds : List Char) : ℕ :=
  ds.foldl (fun a c => a * 10 + digitVal c) 0

/-- Value of a list of decimal digit characters read as a fraction placed
after the decimal point. -/
def fracToRat (ds : List Char) : ℚ :=
  ds.foldr (fun c a => ((digitVal c : ℚ) + a) / 10) 0

/-- Exponent digits of a decimal literal; zero when no digit follows. -/
def expDigits (r : List Char) (neg : Bool) : ℤ :=
  let ds := r.takeWhile Char.isDigit
  if ds.isEmpty then 0
  else if neg then -(digitsToNat ds : ℤ) else (digitsToNat ds : ℤ)

/-- Optional exponent part of a decimal literal.  A bare exponent marker with
no digits contributes nothing, matching the longest-valid-prefix rule of
parseFloat. -/
def parseExponent : List Char → ℤ
  | c :: rest =>
    if c == 'e' || c == 'E' then
      match rest with
      | '+' :: r => expDigits r false
      | '-' :: r => expDigits r true
      | r => expDigits r false
    else 0
  | [] => 0

/-- Unsigned decimal literal at the head of the character list: integer
digits, optional fraction, optional exponent.  Returns none when no digit is
present, in which case parseFloat yields NaN. -/
def parseDecimal (cs : List Char) : Option ℚ :=
  let intDs := cs.takeWhile Char.isDigit
  let rest1 := cs.dropWhile Char.isDigit
  let fracDs :=
    match rest1 with
    | '.' :: r => r.takeWhile Char.isDigit
    | _ => []
  let rest2 :=
    match rest1 with
    | '.' :: r => r.dropWhile Char.isDigit
    | _ => rest1
  if intDs.isEmpty && fracDs.isEmpty then none
  else
    let e := parseExponent rest2
    let base : ℚ := (digitsToNat intDs : ℚ) + fracToRat fracDs
    some (if 0 ≤ e then base * 10 ^ e.toNat else base / 10 ^ (-e).toNat)

/-- Model of the global parseFloat of JavaScript: skip leading whitespace,
optional sign, then either an Infinity literal or the longest decimal
literal prefix; NaN when nothing parses.  Finite results are exact
rationals. -/
def parseFloat (s : String) : JSNum :=
  let cs := s.data.dropWhile isJSWhitespace
  let signed : Bool × List Char :=
    match cs with
    | '-' :: r => (true, r)
    | '+' :: r => (false, r)
    | _ => (false, cs)
  let neg := signed.1
  let cs2 := signed.2
  if ("Infinity".data).isPrefixOf cs2 then
    if neg then .negInf else .posInf
  else
    match parseDecimal cs2 with
    | none => .nan
    | some q => .finite (if neg then -q else q)

/-- Number.EPSILON, the gap between 1 and the next representable double. -/
def numberEpsilon : ℚ := 1 / 2 ^ 52

/-- Math.round on a finite argument: floor of the argument plus one half
(ties round toward positive infinity). -/
def mathRound (q : ℚ) : ℤ := ⌊q + 1 / 2⌋

/-- roundToPrecision from line 82 of the source, at its only used precision
10000: the input is first coerced with parseFloat(num + String()) || 0,
which maps NaN to 0 and keeps finite values and infinities; then
Math.round((num + Number.EPSILON) * 10000) / 10000. -/
def roundToPrecision (n : JSNum) : JSNum :=
  match n with
  | .nan => .finite ((mathRound ((0 + numberEpsilon) * 10000) : ℚ) / 10000)
  | .posInf => .posInf
  | .negInf => .negInf
  | .finite q => .finite ((mathRound ((q + numberEpsilon) * 10000) : ℚ) / 10000)

/-- Math.max on two JavaScript numbers: NaN propagates, otherwise the larger
value. -/
def jsMax : JSNum → JSNum → JSNum
  | .nan, _ => .nan
  | _, .nan => .nan
  | .posInf, _ => .posInf
  | _, .posInf => .posInf
  | .negInf, b => b
  | a, .negInf => a
  | .finite a, .finite b => .finite (max a b)

/-- Math.min on two JavaScript numbers: NaN propagates, otherwise the smaller
value. -/
def jsMin : JSNum → JSNum → JSNum
  | .nan, _ => .nan
  | _, .nan => .nan
  | .negInf, _ => .negInf
  | _, .negInf => .negInf
  | .posInf, b => b
  | a, .posInf => a
  | .finite a, .finite b => .finite (min a b)

/-- Decimal digits of a natural number, most significant first, with fuel. -/
def natToDigitsAux : ℕ → ℕ → List Char
  | 0, _ => []
  | fuel + 1, n =>
    if n < 10 then [Char.ofNat (n + 48)]
    else natToDigitsAux fuel (n / 10) ++ [Char.ofNat (n % 10 + 48)]

/-- Digits after the decimal point of the fraction num/den, by long
division, with fuel; stops when the remainder vanishes. -/
def fracDigitsAux : ℕ → ℕ → ℕ → List Char
  | 0, _, _ => []
  | fuel + 1, num, den =>
    if num == 0 then []
    else Char.ofNat (num * 10 / den + 48) :: fracDigitsAux fuel (num * 10 % den) den

/-- Model of the ToString conversion of JavaScript for finite numbers, in
plain positional decimal.  Exact for values whose decimal expansion
terminates within 64 digits, which covers every value the embedded program
stores into a control (rounded values have denominators dividing 10000). -/
def ratToDecimalString (q : ℚ) : String :=
  let sign := if q < 0 then "-" else ""
  let n := q.num.natAbs
  let d := q.den
  let fr := fracDigitsAux 64 (n % d) d
  sign ++ ⟨natToDigitsAux 64 (n / d)⟩ ++ (if fr.isEmpty then "" else "." ++ ⟨fr⟩)

/-- Model of the ToString conversion of JavaScript for numbers. -/
def jsNumToString : JSNum → String
  | .nan => "NaN"
  | .posInf => "Infinity"
  | .negInf => "-Infinity"
  | .finite q => ratToDecimalString q

/-- Model of toLowerCase as used by the handlers (ASCII case folding). -/
def toLowerStr (s : String) : String := ⟨s.data.map Char.toLower⟩

/-- Model of String.prototype.trim. -/
def trimStr (s : String) : String :=
  ⟨((s.data.dropWhile isJSWhitespace).reverse.dropWhile isJSWhitespace).reverse⟩

/-- Position of the first occurrence of pat inside the list, if any. -/
def firstOccur (pat : List Char) : List Char → Option ℕ
  | [] => if pat.isEmpty then some 0 else none
  | c :: rest =>
    if pat.isPrefixOf (c :: rest) then some 0
    else (firstOccur pat rest).map (fun i => i + 1)

/-- Model of String.prototype.replace with a plain string pattern and empty
replacement: removes the first occurrence of the pattern, wherever it sits
in the string; identity when the pattern does not occur. -/
def replaceFirst (s pat : String) : String :=
  match firstOccur pat.data s.data with
  | none => s
  | some i => ⟨s.data.take i ++ s.data.drop (i + pat.data.length)⟩

/-- sanitizeId from line 79 of the source: six sequential replace calls, in
source order. -/
def sanitizeId (id : String) : String :=
  replaceFirst (replaceFirst (replaceFirst (replaceFirst (replaceFirst (replaceFirst
    id "_counter") "_textgenerationwebui") "_openai") "_novel") "openai_") "oai_"

/-- The six strip tokens of sanitizeId, in the order the source applies
them. -/
def stripTokens : List String :=
  ["_counter", "_textgenerationwebui", "_openai", "_novel", "openai_", "oai_"]

/-- Computed style of one element, restricted to the three properties the
visibility walk inspects. -/
structure Style where
  display : String
  visibility : String
  opacity : String
deriving DecidableEq

/-- One style fails the check of hasVisibleAncestor. -/
def styleHidden (st : Style) : Bool :=
  st.display == "none" || st.visibility == "hidden" || st.opacity == "0"

/-- One input control found under the left panel, together with the DOM
facts the enumerator obtains from host primitives:

* typeAttr and hasDataFor drive the selector
  input[type=range], input[type=checkbox], input[type=number]:not([data-for]);
* styleChain holds the computed styles of the control and of its ancestors
  up to (and excluding) the element matching #ai_response_configuration,
  in inner-to-outer order, as walked by hasVisibleAncestor;
* inOpenAISettings records whether closest on the selector #openai_settings
  finds an ancestor (line 93 of the source);
* titleText is the textContent of the element found by getTitleParent,
  or none when that search returns null;
* minAttr, maxAttr, valueAttr, checked are the attribute values the
  enumerator reads off the control (an absent attribute reads as the empty
  string). -/
structure Control where
  id : String
  typeAttr : String
  hasDataFor : Bool
  styleChain : List Style
  inOpenAISettings : Bool
  titleText : Option String
  maxAttr : String
  minAttr : String
  valueAttr : String
  checked : Bool
deriving DecidableEq

/-- hasVisibleAncestor from lines 58 to 67 of the source: the walk fails as
soon as one element along the chain has display none, hidden visibility or
zero opacity, and succeeds when the stop element (or the end of the chain)
is reached. -/
def hasVisibleAncestor (chain : List Style) : Bool :=
  chain.all (fun st => !styleHidden st)

/-- The selector on line 81 of the source: range inputs, checkbox inputs,
and number inputs that do not carry a data-for attribute. -/
def matchesSelector (c : Control) : Bool :=
  c.typeAttr == "range" || c.typeAttr == "checkbox" ||
    (c.typeAttr == "number" && !c.hasDataFor)

/-- The isVisible filter on line 80 of the source. -/
def isVisibleControl (c : Control) : Bool :=
  hasVisibleAncestor c.styleChain

/-- The ambient UI as the enumerator sees it: the left panel, when present,
carries the input elements below it in raw DOM order. -/
structure UIState where
  leftPanel : Option (List Control)

/-- One discovered sampler parameter, mirroring the record built on lines
99 to 108 of the source. -/
structure SamplerParameter where
  id : String
  name : String
  max : JSNum
  min : JSNum
  value : JSNum
  checked : Bool
  type : String
  control : Control
deriving DecidableEq

/-- The record construction on lines 97 to 108 of the source.  The name is
the trimmed textContent of the title parent; when getTitleParent returns
null the name is undefined in JavaScript, which the discard test on line
110 treats exactly like the empty string, so the model collapses it to the
empty string. -/
def makeSampler (control : Control) : SamplerParameter :=
  { id := sanitizeId control.id
    name := (control.titleText.map trimStr).getD ""
    max := roundToPrecision (parseFloat control.maxAttr)
    min := roundToPrecision (parseFloat control.minAttr)
    value := roundToPrecision (parseFloat control.valueAttr)
    checked := control.checked
    type := control.typeAttr
    control := control }

/-- enumerateSamplerParameters from lines 73 to 118 of the source: empty
when the left panel is absent; otherwise select and visibility-filter the
controls, skip those inside #openai_settings, build the record, and discard
candidates with an empty id or name. -/
def enumerateSamplerParameters (ui : UIState) : List SamplerParameter :=
  match ui.leftPanel with
  | none => []
  | some inputs =>
    let rangeSliders := inputs.filter (fun c => matchesSelector c && isVisibleControl c)
    rangeSliders.filterMap (fun control =>
      if control.inOpenAISettings then none
      else
        let sampler := makeSampler control
        if sampler.id == "" || sampler.name == "" then none
        else some sampler)

/-- Modelled from the spec: isTrueBoolean is imported from the utils module
of the host application and is not part of this repository.  The spec
describes it as a permissive truthy-token rule (accepting tokens in the
style of true, 1, yes, on); no claim depends on the exact token set, only
on the function being total. -/
def isTrueBoolean (s : String) : Bool :=
  ["true", "1", "yes", "on"].contains (toLowerStr (trimStr s))

/-- A JavaScript value as the command framework may hand it to a callback. -/
inductive JSVal where
  | undef
  | nullv
  | bool (b : Bool)
  | num (n : JSNum)
  | str (s : String)
deriving DecidableEq

/-- JavaScript truthiness, as tested by the guards on lines 165 and 176 of
the source. -/
def JSVal.truthy : JSVal → Bool
  | .undef => false
  | .nullv => false
  | .bool b => b
  | .num .nan => false
  | .num (.finite q) => q != 0
  | .num _ => true
  | .str s => s != ""

/-- The typeof test against the string type. -/
def JSVal.isStringV : JSVal → Bool
  | .str _ => true
  | _ => false

/-- The string payload; only inspected under an isStringV guard. -/
def JSVal.asString : JSVal → String
  | .str s => s
  | _ => ""

/-- The errors the two handlers can throw, one constructor per throw site. -/
inductive SamplerError where
  | nameRequired
  | nameNotString
  | parameterNotFound (name : String)
  | valueRequired
  | valueNotString
  | valueNotFinite
deriving DecidableEq

/-- A DOM mutation or event dispatch performed by the set handler. -/
inductive Effect where
  | setChecked (control : Control) (checked : Bool)
  | setValue (control : Control) (value : String)
  | dispatchInput (control : Control)
deriving DecidableEq

/-- True on the event-dispatch effect. -/
def Effect.isDispatch : Effect → Bool
  | .dispatchInput _ => true
  | _ => false

/-- The lookup predicate shared by both handlers (lines 142 and 172): the
lowercased name or id of the parameter equals the normalized argument. -/
def matchesName (n : String) (p : SamplerParameter) : Bool :=
  toLowerStr p.name == n || toLowerStr p.id == n

/-- The sampler-get callback from lines 134 to 147 of the source, as a
function of the enumeration result and the unnamed argument. -/
def samplerGetCallback (ps : List SamplerParameter) (name : JSVal) :
    Except SamplerError String :=
  if !name.truthy then .error .nameRequired
  else if !name.isStringV then .error .nameNotString
  else
    let n := toLowerStr (trimStr name.asString)
    match ps.find? (matchesName n) with
    | none => .error (.parameterNotFound n)
    | some parameter =>
      .ok (if parameter.type == "checkbox"
           then (if parameter.checked then "true" else "false")
           else jsNumToString parameter.value)

/-- The sampler-set callback from lines 163 to 196 of the source, as a
function of the enumeration result and the two arguments.  The returned
effect list records, in order, the control mutation and the bubbling input
event dispatched on line 194; a thrown error aborts before any mutation. -/
def samplerSetCallback (ps : List SamplerParameter) (name value : JSVal) :
    Except SamplerError (String × List Effect) :=
  if !name.truthy then .error .nameRequired
  else if !name.isStringV then .error .nameNotString
  else
    let n := toLowerStr (trimStr name.asString)
    match ps.find? (matchesName n) with
    | none => .error (.parameterNotFound n)
    | some parameter =>
      if !value.truthy then .error .valueRequired
      else if !value.isStringV then .error .valueNotString
      else if parameter.type == "checkbox" then
        let isTrue := isTrueBoolean value.asString
        .ok ("", [.setChecked parameter.control isTrue,
                  .dispatchInput parameter.control])
      else
        match parseFloat value.asString with
        | .finite number =>
          let clamped := jsMin (jsMax (.finite number) parameter.min) parameter.max
          .ok ("", [.setValue parameter.control (jsNumToString clamped),
                    .dispatchInput parameter.control])
        | _ => .error .valueNotFinite

/-- True when the callback threw. -/
def setThrew (r : Except SamplerError (String × List Effect)) : Bool :=
  match r with
  | .error _ => true
  | .ok _ => false

/-- The mutations a set invocation performed: none when it threw. -/
def setEffects (r : Except SamplerError (String × List Effect)) : List Effect :=
  match r with
  | .error _ => []
  | .ok (_, es) => es

/-- A visible checkbox control, as the host UI would render a streaming
toggle. -/
def streamControl : Control :=
  { id := "stream_toggle"
    typeAttr := "checkbox"
    hasDataFor := false
    styleChain := []
    inOpenAISettings := false
    titleText := some "Streaming"
    maxAttr := ""
    minAttr := ""
    valueAttr := ""
    checked := true }

/-- A visible range control with bounds 0 and 2, as the host UI would render
a temperature slider. -/
def tempControl : Control :=
  { id := "temp_textgenerationwebui"
    typeAttr := "range"
    hasDataFor := false
    styleChain := []
    inOpenAISettings := false
    titleText := some "Temperature"
    maxAttr := "2"
    minAttr := "0"
    valueAttr := "0.7"
    checked := false }

/-- A control inside the excluded #openai_settings region that otherwise
matches the selector and the visibility rules. -/
def excludedControl : Control :=
  { id := "temp_openai"
    typeAttr := "range"
    hasDataFor := false
    styleChain := []
    inOpenAISettings := true
    titleText := some "Temperature"
    maxAttr := "2"
    minAttr := "0"
    valueAttr := "1"
    checked := false }

/-- A visible number control carrying no min, max or value attribute. -/
def bareNumberControl : Control :=
  { id := "rep_pen_counter"
    typeAttr := "number"
    hasDataFor := false
    styleChain := []
    inOpenAISettings := false
    titleText := some "Repetition Penalty"
    maxAttr := ""
    minAttr := ""
    valueAttr := ""
    checked := false }

/-- A concrete UI state holding the four controls above in raw DOM order. -/
def demoUI : UIState :=
  ⟨some [streamControl, tempControl, excludedControl, bareNumberControl]⟩

/-- The sampler parameter derived from streamControl. -/
def streamParam : SamplerParameter := makeSampler streamControl

/-- The sampler parameter derived from tempControl. -/
def tempParam : SamplerParameter := makeSampler tempControl

/-- The sampler parameter derived from bareNumberControl. -/
def bareParam : SamplerParameter := makeSampler bareNumberControl

/-- The enumeration result for demoUI. -/
def demoParams : List SamplerParameter := enumerateSamplerParameters demoUI

/-- The raise condition of claim C1, written exactly as the claim states it:
the name argument is missing or not a string, or no enumerated parameter
matches the trimmed lowercased name, or the value argument is missing or
not a string, or the matched parameter is of numeric kind and the value
does not parse to a finite number. -/
def claimC1RaiseCond (ps : List SamplerParameter) (name value : JSVal) : Prop :=
  name = JSVal.undef ∨ name.isStringV = false
  ∨ (name.isStringV = true
      ∧ ps.find? (matchesName (toLowerStr (trimStr name.asString))) = none)
  ∨ value = JSVal.undef ∨ value.isStringV = false
  ∨ Option.any
      (fun p => p.type != "checkbox" && !(parseFloat value.asString).isFiniteB)
      (ps.find? (matchesName (toLowerStr (trimStr name.asString)))) = true

/-- The raise condition of claim C1 amended by the one case the code forces:
a present value that is the empty string is treated like a missing value and
also raises. -/
def claimC1RaiseCondAmended (ps : List SamplerParameter) (name value : JSVal) : Prop :=
  claimC1RaiseCond ps name value ∨ value = JSVal.str ""

/-- Every parameter in the enumeration output is the record built from its
own control, that control lies outside the excluded region, and the discard
test on line 110 let it through. -/
theorem mem_enumerate {ui : UIState} {p : SamplerParameter}
    (hp : p ∈ enumerateSamplerParameters ui) :
    p = makeSampler p.control ∧ p.control.inOpenAISettings = false
      ∧ p.id ≠ "" ∧ p.name ≠ "" := by
  obtain ⟨lp⟩ := ui
  cases lp with
  | none => simp [enumerateSamplerParameters] at hp
  | some inputs =>
    simp only [enumerateSamplerParameters, List.mem_filterMap] at hp
    obtain ⟨c, -, hc⟩ := hp
    by_cases h1 : c.inOpenAISettings = true
    · simp [h1] at hc
    · by_cases h2 : ((makeSampler c).id == "" || (makeSampler c).name == "") = true
      · simp [h1, h2] at hc
      · simp [h1, h2] at hc
        subst hc
        simp only [Bool.or_eq_true, beq_iff_eq, not_or] at h2
        refine ⟨rfl, ?_, h2.1, h2.2⟩
        have hfalse : c.inOpenAISettings = false := by simpa using h1
        exact hfalse

/-- When find? succeeds it returns the first element of the list satisfying
the predicate, in list order. -/
theorem find?_first {α : Type} (f : α → Bool) :
    ∀ (l : List α) (a : α), l.find? f = some a →
      ∃ i : Fin l.length, l.get i = a ∧ f a = true
        ∧ ∀ j : Fin l.length, j.val < i.val → f (l.get j) = false := by
  intro l
  induction l with
  | nil => intro a h; simp at h
  | cons x xs ih =>
    intro a h
    by_cases hx : f x = true
    · rw [List.find?_cons_of_pos _ hx] at h
      obtain rfl : x = a := by simpa using h
      exact ⟨⟨0, by simp⟩, rfl, hx, fun j hj => absurd hj (by simp)⟩
    · rw [List.find?_cons_of_neg _ (by simpa using hx)] at h
      obtain ⟨i, hget, hfa, hprior⟩ := ih a h
      refine ⟨⟨i.val + 1, Nat.succ_lt_succ i.isLt⟩, by simpa using hget, hfa, ?_⟩
      intro j hj
      rcases j with ⟨jv, hjlt⟩
      cases jv with
      | zero => simpa using hx
      | succ k =>
        simp only [Fin.mk_lt_mk] at hj
        have hki : k < i.val := by omega
        simpa using hprior ⟨k, by simpa using hjlt⟩ hki

/-- Unfolding of the set callback once the name argument is a non-empty
string and the lookup has resolved. -/
theorem samplerSet_resolved (ps : List SamplerParameter) (s : String)
    (p : SamplerParameter) (hs : s ≠ "")
    (hfind : ps.find? (matchesName (toLowerStr (trimStr s))) = some p)
    (value : JSVal) :
    samplerSetCallback ps (.str s) value =
      (if !value.truthy then .error .valueRequired
       else if !value.isStringV then .error .valueNotString
       else if p.type == "checkbox" then
         .ok ("", [.setChecked p.control (isTrueBoolean value.asString),
                   .dispatchInput p.control])
       else
         match parseFloat value.asString with
         | .finite number =>
           .ok ("", [.setValue p.control
                       (jsNumToString (jsMin (jsMax (.finite number) p.min) p.max)),
                     .dispatchInput p.control])
         | _ => .error .valueNotFinite) := by
  simp [samplerSetCallback, JSVal.truthy, JSVal.isStringV, JSVal.asString, hs, hfind]

/-- Unfolding of the set callback once both arguments are non-empty strings
and the lookup has resolved. -/
theorem samplerSet_resolved_str (ps : List SamplerParameter) (s : String)
    (p : SamplerParameter) (hs : s ≠ "")
    (hfind : ps.find? (matchesName (toLowerStr (trimStr s))) = some p)
    (v : String) (hv : v ≠ "") :
    samplerSetCallback ps (.str s) (.str v) =
      (if p.type == "checkbox" then
        .ok ("", [.setChecked p.control (isTrueBoolean v), .dispatchInput p.control])
      else
        match parseFloat v with
        | .finite number =>
          .ok ("", [.setValue p.control
                      (jsNumToString (jsMin (jsMax (.finite number) p.min) p.max)),
                    .dispatchInput p.control])
        | _ => .error .valueNotFinite) := by
  rw [samplerSet_resolved ps s p hs hfind (.str v)]
  simp [JSVal.truthy, JSVal.isStringV, JSVal.asString, hv]

/-- Least-position property of firstOccur: a hit is an occurrence and no
earlier position carries one. -/
theorem firstOccur_least (pat : List Char) :
    ∀ (s : List Char) (i : ℕ), firstOccur pat s = some i →
      pat.isPrefixOf (s.drop i) = true
        ∧ ∀ j : ℕ, j < i → pat.isPrefixOf (s.drop j) = false := by
  intro s
  induction s with
  | nil =>
    intro i h
    rw [firstOccur] at h
    by_cases he : pat.isEmpty = true
    · rw [if_pos he] at h
      obtain rfl : (0 : ℕ) = i := by simpa using h
      have : pat = [] := by simpa using he
      subst this
      exact ⟨rfl, fun j hj => absurd hj (by omega)⟩
    · rw [if_neg he] at h
      exact absurd h (by simp)
  | cons c rest ih =>
    intro i h
    rw [firstOccur] at h
    by_cases hp : pat.isPrefixOf (c :: rest) = true
    · rw [if_pos hp] at h
      obtain rfl : (0 : ℕ) = i := by simpa using h
      exact ⟨hp, fun j hj => absurd hj (by omega)⟩
    · rw [if_neg hp] at h
      simp only [Option.map_eq_some'] at h
      obtain ⟨i0, hi0, rfl⟩ := h
      obtain ⟨h1, h2⟩ := ih i0 hi0
      refine ⟨h1, ?_⟩
      intro j hj
      cases j with
      | zero => simpa only [List.drop_zero, Bool.not_eq_true] using hp
      | succ k => exact h2 k (by omega)

/-- C5: the derived id is produced by sequentially replacing, in the fixed
source order of the six strip tokens, the first (hence a mid-string, not
only edge-anchored) occurrence of each token, unconditionally: a step with
no occurrence leaves the string unchanged, and a step with an occurrence at
the least position i deletes exactly that occurrence. -/
theorem sanitizeId_sequential_replacement :
    (∀ id : String, sanitizeId id = stripTokens.foldl replaceFirst id)
    ∧ (∀ (s pat : String) (i : ℕ), firstOccur pat.data s.data = some i →
        pat.data.isPrefixOf (s.data.drop i) = true
        ∧ (∀ j : ℕ, j < i → pat.data.isPrefixOf (s.data.drop j) = false)
        ∧ replaceFirst s pat = ⟨s.data.take i ++ s.data.drop (i + pat.data.length)⟩)
    ∧ (∀ s pat : String, firstOccur pat.data s.data = none → replaceFirst s pat = s) := by
  refine ⟨fun id => rfl, fun s pat i h => ?_, fun s pat h => ?_⟩
  · obtain ⟨h1, h2⟩ := firstOccur_least pat.data s.data i h
    exact ⟨h1, h2, by simp [replaceFirst, h]⟩
  · simp [replaceFirst, h]

/-- Witness for C5 at a concrete identifier in which the token _openai sits
strictly mid-string, neither as a prefix nor as a suffix. -/
theorem sanitizeId_sequential_replacement_witness :
    firstOccur "_openai".data "a_openaib".data = some 1
    ∧ "_openai".data.isPrefixOf ("a_openaib".data.drop 1) = true
    ∧ (∀ j : ℕ, j < 1 → "_openai".data.isPrefixOf ("a_openaib".data.drop j) = false)
    ∧ replaceFirst "a_openaib" "_openai" = "ab"
    ∧ sanitizeId "a_openaib" = "ab" := by
  have h := sanitizeId_sequential_replacement.2.1 "a_openaib" "_openai" 1 (by decide)
  exact ⟨by decide, h.1, h.2.1, h.2.2.trans (by decide), by decide⟩

/-- C6: every enumerated sampler parameter carries a non-empty id and a
non-empty name, and a candidate control whose resolved id or name is empty
backs no element of the output. -/
theorem enumerate_nonempty_id_name :
    (∀ (ui : UIState) (p : SamplerParameter), p ∈ enumerateSamplerParameters ui →
      p.id ≠ "" ∧ p.name ≠ "")
    ∧ (∀ (ui : UIState) (c : Control),
        ((makeSampler c).id = "" ∨ (makeSampler c).name = "") →
        ∀ p ∈ enumerateSamplerParameters ui, p.control ≠ c) := by
  constructor
  · intro ui p hp
    exact ⟨(mem_enumerate hp).2.2.1, (mem_enumerate hp).2.2.2⟩
  · intro ui c hc p hp heq
    obtain ⟨hrec, -, hid, hname⟩ := mem_enumerate hp
    subst heq
    cases hc with
    | inl h => exact hid (by rw [hrec]; exact h)
    | inr h => exact hname (by rw [hrec]; exact h)

/-- Witness for C6 on the concrete demo UI. -/
theorem enumerate_nonempty_id_name_witness :
    streamParam ∈ enumerateSamplerParameters demoUI
    ∧ streamParam.id ≠ "" ∧ streamParam.name ≠ "" := by
  have hm : streamParam ∈ enumerateSamplerParameters demoUI := by
    with_unfolding_all decide
  exact ⟨hm, (enumerate_nonempty_id_name.1 demoUI streamParam hm).1,
    (enumerate_nonempty_id_name.1 demoUI streamParam hm).2⟩

/-- C7: enumeration is a total function of the ambient UI state (it is a
Lean function, so it never raises), and when the parameters panel root is
absent it returns the empty sequence rather than an error. -/
theorem enumerate_absent_root_empty (ui : UIState) (h : ui.leftPanel = none) :
    enumerateSamplerParameters ui = [] := by
  obtain ⟨lp⟩ := ui
  simp only [enumerateSamplerParameters]
  rw [show lp = none from h]

/-- Witness for C7 at the concrete UI state with no left panel. -/
theorem enumerate_absent_root_empty_witness :
    enumerateSamplerParameters ⟨none⟩ = [] :=
  enumerate_absent_root_empty ⟨none⟩ rfl

/-- C8: a control inside the excluded #openai_settings region backs no
enumerated parameter, even when it matches the selector and the visibility
rules. -/
theorem enumerate_excludes_openai_region (ui : UIState) (c : Control)
    (hc : c.inOpenAISettings = true) :
    ∀ p ∈ enumerateSamplerParameters ui, p.control ≠ c := by
  intro p hp heq
  have h := (mem_enumerate hp).2.1
  rw [heq, hc] at h
  exact absurd h (by simp)

/-- Witness for C8: the excluded demo control matches the selector and is
visible, yet backs no enumerated parameter. -/
theorem enumerate_excludes_openai_region_witness :
    excludedControl.inOpenAISettings = true
    ∧ matchesSelector excludedControl = true
    ∧ isVisibleControl excludedControl = true
    ∧ tempParam ∈ enumerateSamplerParameters demoUI
    ∧ tempParam.control ≠ excludedControl := by
  refine ⟨rfl, by decide, rfl, by with_unfolding_all decide, ?_⟩
  exact enumerate_excludes_openai_region demoUI excludedControl rfl tempParam
    (by with_unfolding_all decide)

/-- C9: rounding is half-up at 4 decimal digits after adding Number.EPSILON
(the round function of Mathlib is floor of the argument plus one half, i.e.
half-up), and on the two concrete inputs of the claim 0.123449999 rounds to
0.1234 while 0.12345 rounds to 0.1235. -/
theorem roundToPrecision_half_up_with_epsilon :
    (∀ q : ℚ, roundToPrecision (.finite q) =
      .finite (((round ((q + numberEpsilon) * 10000) : ℤ) : ℚ) / 10000))
    ∧ roundToPrecision (.finite (123449999 / 1000000000)) = .finite (1234 / 10000)
    ∧ roundToPrecision (.finite (12345 / 100000)) = .finite (1235 / 10000) := by
  refine ⟨fun q => ?_, by with_unfolding_all rfl, by with_unfolding_all rfl⟩
  simp [roundToPrecision, mathRound, round_eq]

/-- C10: the rounding helper maps a non-parsing input to 0 (it is total by
construction); consequently an enumerated control whose min or max
attribute does not parse gets the bound 0, and a set on a parameter whose
bounds are both 0 clamps every finite value to 0. -/
theorem roundToPrecision_unparseable_to_zero :
    (∀ s : String, parseFloat s = .nan → roundToPrecision (parseFloat s) = .finite 0)
    ∧ (∀ (ui : UIState) (p : SamplerParameter), p ∈ enumerateSamplerParameters ui →
        (parseFloat p.control.minAttr = .nan → p.min = .finite 0)
        ∧ (parseFloat p.control.maxAttr = .nan → p.max = .finite 0))
    ∧ (∀ (ps : List SamplerParameter) (s v : String) (p : SamplerParameter) (q : ℚ),
        s ≠ "" → v ≠ "" →
        ps.find? (matchesName (toLowerStr (trimStr s))) = some p →
        p.type ≠ "checkbox" → parseFloat v = .finite q →
        p.min = .finite 0 → p.max = .finite 0 →
        samplerSetCallback ps (.str s) (.str v) =
          .ok ("", [.setValue p.control (jsNumToString (.finite 0)),
                    .dispatchInput p.control])) := by
  refine ⟨fun s h => ?_, fun ui p hp => ⟨fun hmin => ?_, fun hmax => ?_⟩,
    fun ps s v p q hs hv hfind hty hq hmin hmax => ?_⟩
  · rw [h]
    with_unfolding_all rfl
  · conv_lhs => rw [(mem_enumerate hp).1]
    show roundToPrecision (parseFloat p.control.minAttr) = .finite 0
    rw [hmin]
    with_unfolding_all rfl
  · conv_lhs => rw [(mem_enumerate hp).1]
    show roundToPrecision (parseFloat p.control.maxAttr) = .finite 0
    rw [hmax]
    with_unfolding_all rfl
  · rw [samplerSet_resolved_str ps s p hs hfind v hv]
    have hcb : (p.type == "checkbox") = false := by simpa using hty
    rw [if_neg (by simp [hcb]), hq]
    simp only [hmin, hmax, jsMax, jsMin]
    rw [min_eq_right (le_max_right q 0)]

/-- Witness for C10 on the demo number control with no min, max or value
attributes. -/
theorem roundToPrecision_unparseable_to_zero_witness :
    parseFloat "" = JSNum.nan
    ∧ roundToPrecision (parseFloat "") = JSNum.finite 0
    ∧ bareParam ∈ enumerateSamplerParameters demoUI
    ∧ bareParam.min = JSNum.finite 0 ∧ bareParam.max = JSNum.finite 0
    ∧ samplerSetCallback demoParams (.str "rep_pen") (.str "3") =
        .ok ("", [.setValue bareParam.control (jsNumToString (JSNum.finite 0)),
                  .dispatchInput bareParam.control]) := by
  have h1 := roundToPrecision_unparseable_to_zero.1 "" (by with_unfolding_all rfl)
  have h3 := roundToPrecision_unparseable_to_zero.2.2 demoParams "rep_pen" "3" bareParam 3
    (by decide) (by decide) (by with_unfolding_all rfl) (by with_unfolding_all decide)
    (by with_unfolding_all rfl) (by with_unfolding_all rfl) (by with_unfolding_all rfl)
  exact ⟨by with_unfolding_all rfl, h1, by with_unfolding_all decide,
    by with_unfolding_all rfl, by with_unfolding_all rfl, h3⟩

/-- C2 counterexample: the empty string does not parse to a finite number,
yet on a matched numeric-kind parameter the set handler throws the
value-required error from the falsy guard on line 176, not the
finite-number error the claim asserts. -/
theorem samplerSet_nonfinite_counterexample :
    (parseFloat "").isFiniteB = false
    ∧ demoParams.find? (matchesName (toLowerStr (trimStr "temp"))) = some tempParam
    ∧ tempParam.type ≠ "checkbox"
    ∧ samplerSetCallback demoParams (.str "temp") (.str "") =
        .error .valueRequired
    ∧ samplerSetCallback demoParams (.str "temp") (.str "") ≠
        .error .valueNotFinite := by
  refine ⟨by with_unfolding_all rfl, by with_unfolding_all rfl,
    by with_unfolding_all decide, by with_unfolding_all rfl, ?_⟩
  intro h
  rw [show samplerSetCallback demoParams (.str "temp") (.str "") =
      .error .valueRequired from by with_unfolding_all rfl] at h
  exact SamplerError.noConfusion (Except.error.inj h)

/-- C2 as amended: on a numeric-kind parameter, a value other than the
empty string that does not parse to a finite number makes the set handler
throw the finite-number error, and no mutation or notification effect is
produced (the empty string is rejected earlier, by the missing-value guard,
likewise without mutation). -/
theorem samplerSet_nonfinite_error_no_mutation (ps : List SamplerParameter)
    (s v : String) (p : SamplerParameter) (hs : s ≠ "") (hv : v ≠ "")
    (hfind : ps.find? (matchesName (toLowerStr (trimStr s))) = some p)
    (hty : p.type ≠ "checkbox") (hnf : (parseFloat v).isFiniteB = false) :
    samplerSetCallback ps (.str s) (.str v) = .error .valueNotFinite
    ∧ setEffects (samplerSetCallback ps (.str s) (.str v)) = [] := by
  have hfirst : samplerSetCallback ps (.str s) (.str v) = .error .valueNotFinite := by
    rw [samplerSet_resolved_str ps s p hs hfind v hv]
    have hcb : (p.type == "checkbox") = false := by simpa using hty
    rw [if_neg (by simp [hcb])]
    cases hpf : parseFloat v with
    | finite q => rw [hpf] at hnf; exact absurd hnf (by simp [JSNum.isFiniteB])
    | nan => simp [hpf]
    | posInf => simp [hpf]
    | negInf => simp [hpf]
  exact ⟨hfirst, by rw [hfirst]; rfl⟩

/-- Witness for C2: setting the demo temperature slider to abc. -/
theorem samplerSet_nonfinite_error_no_mutation_witness :
    ("temp" : String) ≠ "" ∧ ("abc" : String) ≠ ""
    ∧ demoParams.find? (matchesName (toLowerStr (trimStr "temp"))) = some tempParam
    ∧ tempParam.type ≠ "checkbox"
    ∧ (parseFloat "abc").isFiniteB = false
    ∧ samplerSetCallback demoParams (.str "temp") (.str "abc") = .error .valueNotFinite
    ∧ setEffects (samplerSetCallback demoParams (.str "temp") (.str "abc")) = [] := by
  have h := samplerSet_nonfinite_error_no_mutation demoParams "temp" "abc" tempParam
    (by decide) (by decide) (by with_unfolding_all rfl) (by with_unfolding_all decide)
    (by with_unfolding_all rfl)
  exact ⟨by decide, by decide, by with_unfolding_all rfl, by with_unfolding_all decide,
    by with_unfolding_all rfl, h.1, h.2⟩

/-- C3: on a numeric-kind parameter with finite bounds, a value parsing to
the finite number q makes the set handler assign the clamped value
min (max q mn) mx to the control and dispatch exactly one bubbling input
notification. -/
theorem samplerSet_numeric_clamps (ps : List SamplerParameter) (s v : String)
    (p : SamplerParameter) (q mn mx : ℚ) (hs : s ≠ "") (hv : v ≠ "")
    (hfind : ps.find? (matchesName (toLowerStr (trimStr s))) = some p)
    (hty : p.type ≠ "checkbox") (hq : parseFloat v = .finite q)
    (hmin : p.min = .finite mn) (hmax : p.max = .finite mx) :
    samplerSetCallback ps (.str s) (.str v) =
      .ok ("", [.setValue p.control (jsNumToString (.finite (min (max q mn) mx))),
                .dispatchInput p.control])
    ∧ (setEffects (samplerSetCallback ps (.str s) (.str v))).countP
        Effect.isDispatch = 1 := by
  have hfirst : samplerSetCallback ps (.str s) (.str v) =
      .ok ("", [.setValue p.control (jsNumToString (.finite (min (max q mn) mx))),
                .dispatchInput p.control]) := by
    rw [samplerSet_resolved_str ps s p hs hfind v hv]
    have hcb : (p.type == "checkbox") = false := by simpa using hty
    rw [if_neg (by simp [hcb]), hq]
    simp only [hmin, hmax, jsMax, jsMin]
  exact ⟨hfirst, by rw [hfirst]; rfl⟩

/-- Witness for C3: range 0 to 2, value 5, clamped to 2, one dispatch. -/
theorem samplerSet_numeric_clamps_witness :
    tempParam.min = JSNum.finite 0 ∧ tempParam.max = JSNum.finite 2
    ∧ parseFloat "5" = JSNum.finite 5
    ∧ jsNumToString (JSNum.finite (min (max (5 : ℚ) 0) 2)) = "2"
    ∧ samplerSetCallback demoParams (.str "temp") (.str "5") =
        .ok ("", [.setValue tempParam.control
                    (jsNumToString (.finite (min (max (5 : ℚ) 0) 2))),
                  .dispatchInput tempParam.control])
    ∧ (setEffects (samplerSetCallback demoParams (.str "temp") (.str "5"))).countP
        Effect.isDispatch = 1 := by
  have h := samplerSet_numeric_clamps demoParams "temp" "5" tempParam 5 0 2
    (by decide) (by decide) (by with_unfolding_all rfl) (by with_unfolding_all decide)
    (by with_unfolding_all rfl) (by with_unfolding_all rfl) (by with_unfolding_all rfl)
  exact ⟨by with_unfolding_all rfl, by with_unfolding_all rfl, by with_unfolding_all rfl,
    by with_unfolding_all rfl, h.1, h.2⟩

/-- C4: the get handler trims and lowercases its string argument, resolves
the first parameter in raw enumeration order whose lowercased name or id
equals the normalized argument, and returns true or false for a checkbox
parameter and the stringified (already rounded at enumeration time) numeric
value otherwise. -/
theorem samplerGet_first_match_render (ps : List SamplerParameter) (s : String)
    (hs : s ≠ "") :
    (samplerGetCallback ps (.str s) =
      match ps.find? (matchesName (toLowerStr (trimStr s))) with
      | none => .error (.parameterNotFound (toLowerStr (trimStr s)))
      | some p => .ok (if p.type == "checkbox"
                       then (if p.checked then "true" else "false")
                       else jsNumToString p.value))
    ∧ (∀ p : SamplerParameter,
        ps.find? (matchesName (toLowerStr (trimStr s))) = some p →
        ∃ i : Fin ps.length, ps.get i = p
          ∧ matchesName (toLowerStr (trimStr s)) p = true
          ∧ ∀ j : Fin ps.length, j.val < i.val →
              matchesName (toLowerStr (trimStr s)) (ps.get j) = false)
    ∧ (∀ (ui : UIState) (p : SamplerParameter), p ∈ enumerateSamplerParameters ui →
        p.value = roundToPrecision (parseFloat p.control.valueAttr)) := by
  refine ⟨?_, fun p hp => find?_first _ ps p hp, fun ui p hp => ?_⟩
  · simp [samplerGetCallback, JSVal.truthy, JSVal.isStringV, JSVal.asString, hs]
  · conv_lhs => rw [(mem_enumerate hp).1]
    rfl

/-- Witness for C4: a mixed-case, padded name resolves the checkbox
parameter and returns true. -/
theorem samplerGet_first_match_render_witness :
    (" StReAmInG " : String) ≠ ""
    ∧ samplerGetCallback demoParams (.str " StReAmInG ") = .ok "true"
    ∧ demoParams.find? (matchesName (toLowerStr (trimStr " StReAmInG "))) =
        some streamParam := by
  refine ⟨by decide, ?_, by with_unfolding_all rfl⟩
  rw [(samplerGet_first_match_render demoParams " StReAmInG " (by decide)).1]
  with_unfolding_all rfl

/-- C1 counterexample: on a checkbox parameter, the present string value
that is empty makes the handler throw (Value is required), although none of
the raise conditions enumerated by the claim holds at that input. -/
theorem samplerSet_raise_cond_counterexample :
    setThrew (samplerSetCallback demoParams (.str " StReAmInG ") (.str "")) = true
    ∧ ¬ claimC1RaiseCond demoParams (.str " StReAmInG ") (.str "") := by
  constructor
  · with_unfolding_all rfl
  · simp only [claimC1RaiseCond]
    with_unfolding_all decide

/-- C1 as amended: the set handler throws exactly when the name argument is
missing or not a string, or no enumerated parameter matches the trimmed
lowercased name, or the value argument is missing, not a string, or the
empty string, or the matched parameter is numeric-kind and the value does
not parse to a finite number.  The hypothesis reflects the enumeration
invariant that no parameter has an empty name or id, so nothing matches the
empty lookup key. -/
theorem samplerSet_throws_iff_amended (ps : List SamplerParameter)
    (name value : JSVal) (hempty : ps.find? (matchesName "") = none) :
    setThrew (samplerSetCallback ps name value) = true
      ↔ claimC1RaiseCondAmended ps name value := by
  cases name with
  | undef =>
    simp [samplerSetCallback, setThrew, claimC1RaiseCondAmended, claimC1RaiseCond,
      JSVal.truthy, JSVal.isStringV]
  | nullv =>
    simp [samplerSetCallback, setThrew, claimC1RaiseCondAmended, claimC1RaiseCond,
      JSVal.truthy, JSVal.isStringV]
  | bool b =>
    cases b <;>
      simp [samplerSetCallback, setThrew, claimC1RaiseCondAmended, claimC1RaiseCond,
        JSVal.truthy, JSVal.isStringV]
  | num n =>
    by_cases ht : (JSVal.num n).truthy = true
    · simp [samplerSetCallback, setThrew, claimC1RaiseCondAmended, claimC1RaiseCond,
        JSVal.isStringV, ht]
    · have ht2 : (JSVal.num n).truthy = false := by simpa using ht
      simp [samplerSetCallback, setThrew, claimC1RaiseCondAmended, claimC1RaiseCond,
        JSVal.isStringV, ht2]
  | str s =>
    by_cases hs0 : s = ""
    · subst hs0
      have hn : toLowerStr (trimStr "") = "" := rfl
      simp [samplerSetCallback, setThrew, claimC1RaiseCondAmended, claimC1RaiseCond,
        JSVal.truthy, JSVal.isStringV, JSVal.asString, hn, hempty]
    · cases hfind : ps.find? (matchesName (toLowerStr (trimStr s))) with
      | none =>
        simp [samplerSetCallback, setThrew, claimC1RaiseCondAmended, claimC1RaiseCond,
          JSVal.truthy, JSVal.isStringV, JSVal.asString, hs0, hfind]
      | some p =>
        cases value with
        | undef =>
          simp [samplerSetCallback, setThrew, claimC1RaiseCondAmended, claimC1RaiseCond,
            JSVal.truthy, JSVal.isStringV, JSVal.asString, hs0, hfind]
        | nullv =>
          simp [samplerSetCallback, setThrew, claimC1RaiseCondAmended, claimC1RaiseCond,
            JSVal.truthy, JSVal.isStringV, JSVal.asString, hs0, hfind]
        | bool b =>
          cases b <;>
            simp [samplerSetCallback, setThrew, claimC1RaiseCondAmended, claimC1RaiseCond,
              JSVal.truthy, JSVal.isStringV, JSVal.asString, hs0, hfind]
        | num n =>
          by_cases hvt : (JSVal.num n).truthy = true
          · simp only [samplerSetCallback, setThrew, claimC1RaiseCondAmended,
              claimC1RaiseCond, JSVal.isStringV, JSVal.asString, hs0, hfind, hvt]
            simp [hfind]
            by_cases hst : (JSVal.str s).truthy = false
            · rw [if_pos hst]
            · rw [if_neg hst]
          · have hvt2 : (JSVal.num n).truthy = false := by simpa using hvt
            simp only [samplerSetCallback, setThrew, claimC1RaiseCondAmended,
              claimC1RaiseCond, JSVal.isStringV, JSVal.asString, hs0, hfind, hvt2]
            simp [hfind]
            by_cases hst : (JSVal.str s).truthy = false
            · rw [if_pos hst]
            · rw [if_neg hst]
        | str v =>
          by_cases hv0 : v = ""
          · subst hv0
            simp [samplerSetCallback, setThrew, claimC1RaiseCondAmended, claimC1RaiseCond,
              JSVal.truthy, JSVal.isStringV, JSVal.asString, hs0, hfind]
          · by_cases hty : (p.type == "checkbox") = true
            · have htyeq : p.type = "checkbox" := by simpa using hty
              simp [samplerSetCallback, setThrew, claimC1RaiseCondAmended, claimC1RaiseCond,
                JSVal.truthy, JSVal.isStringV, JSVal.asString, hs0, hv0, hfind, hty, htyeq]
            · have hty2 : (p.type == "checkbox") = false := by simpa using hty
              have htyne : p.type ≠ "checkbox" := by simpa using hty2
              cases hpf : parseFloat v with
              | finite q =>
                simp [samplerSetCallback, setThrew, claimC1RaiseCondAmended,
                  claimC1RaiseCond, JSVal.truthy, JSVal.isStringV, JSVal.asString,
                  hs0, hv0, hfind, hty2, hpf, JSNum.isFiniteB]
              | nan =>
                simp [samplerSetCallback, setThrew, claimC1RaiseCondAmended,
                  claimC1RaiseCond, JSVal.truthy, JSVal.isStringV, JSVal.asString,
                  hs0, hv0, hfind, hty2, htyne, hpf, JSNum.isFiniteB]
              | posInf =>
                simp [samplerSetCallback, setThrew, claimC1RaiseCondAmended,
                  claimC1RaiseCond, JSVal.truthy, JSVal.isStringV, JSVal.asString,
                  hs0, hv0, hfind, hty2, htyne, hpf, JSNum.isFiniteB]
              | negInf =>
                simp [samplerSetCallback, setThrew, claimC1RaiseCondAmended,
                  claimC1RaiseCond, JSVal.truthy, JSVal.isStringV, JSVal.asString,
                  hs0, hv0, hfind, hty2, htyne, hpf, JSNum.isFiniteB]

/-- Witness for the amended C1 at a concrete numeric parameter and a
non-parsing value. -/
theorem samplerSet_throws_iff_amended_witness :
    demoParams.find? (matchesName "") = none
    ∧ (setThrew (samplerSetCallback demoParams (.str "temp") (.str "abc")) = true
        ↔ claimC1RaiseCondAmended demoParams (.str "temp") (.str "abc")) := by
  refine ⟨by with_unfolding_all rfl, ?_⟩
  exact samplerSet_throws_iff_amended demoParams (.str "temp") (.str "abc")
    (by with_unfolding_all rfl)
